import Mathlib

/-!
Verification development for the gw2pvo repository: a daemon that polls a
GoodWe solar inverter cloud API and an optional smart meter, reconciles the
readings into one upload record, and forwards data to PVOutput.org.

The Lean definitions below are a shallow embedding of the Python source:

* `consumptionStep` embeds the smart-meter consumption block of
  `run_once` (`gw2pvo/__main__.py`, lines 195-233): the consumed-energy
  formula, the midnight grace-window reset path, the monotonicity clamp on
  consumed energy and the non-negativity clamp on consumed power.
* `buildPvoData` embeds the `pvo_data` record construction of `run_once`
  (lines 235-262); `addStatusPayload` embeds `PVOutputApi.add_status`
  (`gw2pvo/pvo_api.py`, lines 38-72).
* `runOnce` embeds the control flow of `run_once` around the consumption
  block, with an explicit effect trace (fetch, CSV append, uploads);
  `copyEffects` embeds the one-shot backfill path `copy` (lines 274-294)
  together with `PVOutputApi.add_day`.
* `pvoCall` embeds the retry loop of `PVOutputApi.call`
  (`gw2pvo/pvo_api.py`, lines 118-138).
* `gwGetDayReadings` embeds `GoodWeApi.getDayReadings`
  (`tests/gw_api copy.py`, lines 209-241).

Machine arithmetic: the Python code works on Python floats and unbounded
ints; we model numeric readings as rationals (`ℚ`) and the results of
Python `round`/`int` as integers (`ℤ`).  Python `round` rounds half to
even, `int()` truncates toward zero; both are modelled exactly below.
-/

/-- Floor of a rational as an integer, computed directly on the numerator
and denominator with floor division (`Int.fdiv`). -/
def ratFloor (q : ℚ) : ℤ := Int.fdiv q.num (q.den : ℤ)

/-- Python `round(x)`: round half to even ("banker's rounding"). -/
def pyRound (q : ℚ) : ℤ :=
  let f := ratFloor q
  let frac := q - (f : ℚ)
  if frac < 1/2 then f
  else if 1/2 < frac then f + 1
  else if Int.emod f 2 = 0 then f else f + 1

/-- Python `int(x)` on a number: truncation toward zero. -/
def pyInt (q : ℚ) : ℤ := Int.tdiv q.num (q.den : ℤ)

/-- Python `round(x, 3)`: round half to even at the third decimal. -/
def round3 (q : ℚ) : ℚ := (pyRound (q * 1000) : ℚ) / 1000

/-- The dictionary returned by `smartmeter_mqtt.returndata`: meter readings
used by the consumption block of `run_once` (energies in Wh since local
midnight, powers in W). -/
structure MeterData where
  import_energy : ℚ
  import_power : ℚ
  export_energy : ℚ
  export_power : ℚ
  deriving Repr, DecidableEq

/-- The module-level globals of `gw2pvo/__main__.py` that the consumption
block of `run_once` reads and writes; they persist between invocations
(lines 48-53). -/
structure ConsState where
  last_consumed_energy : ℤ
  last_consumed_power : ℤ
  telegram_midnight : String
  deriving Repr, DecidableEq

/-- Initial global state of the process (lines 48-53):
`last_consumed_power = 120`, `last_consumed_energy = 0`,
`telegram_midnight = ""`. -/
def initialConsState : ConsState :=
  { last_consumed_energy := 0, last_consumed_power := 120, telegram_midnight := "" }

/-- Result of one execution of the consumption block: either the pair
(consumed_energy, consumed_power) in Wh and W, or a raised name-lookup
error (Python `NameError` / `UnboundLocalError`) carrying the name that
failed to resolve. -/
inductive ConsOutcome where
  | ok (consumed_energy consumed_power : ℤ)
  | nameError (var : String)
  deriving Repr, DecidableEq

/-- The consumption block of `run_once` (`gw2pvo/__main__.py` lines
202-230), executed when a smart meter is present and a telegram has been
received.  `grace` is the midnight test of line 213: seconds since local
midnight below 301.

Line-by-line correspondence:
* line 208: `consumed_energy = round(import_energy - export_energy + generated_energy)`;
* lines 213-220, the grace-window reset path: line 215 assigns
  `telegram_midnight = telegram`, then line 216 executes `print (telegram_)`
  where no name `telegram_` is defined anywhere in the module, so Python
  raises `NameError` there and the rest of the reset path (lines 218-220,
  which would zero `eday_kwh`, recompute `consumed_energy` without the
  generated term and reset `last_consumed_energy`) is unreachable;
* lines 222-224, monotonicity clamp: if `consumed_energy <
  last_consumed_energy` then `consumed_energy = last_consumed_energy`
  followed by `last_consumed_energy = consumed_energy`, which re-assigns
  the value `last_consumed_energy` already has;
* line 227: `consumed_power = round(import_power - export_power + generated_power)`;
* lines 228-230, non-negativity clamp: if `consumed_power < 0` then
  `consumed_power = last_consumed_power` followed by
  `last_consumed_power = consumed_power`, again re-assigning the value
  `last_consumed_power` already has. -/
def consumptionStep (st : ConsState) (telegram : String) (meter : MeterData)
    (grace : Bool) (generated_energy generated_power : ℤ) :
    ConsState × ConsOutcome :=
  let consumed_energy :=
    pyRound (meter.import_energy - meter.export_energy + (generated_energy : ℚ))
  if grace then
    ({ st with telegram_midnight := telegram }, ConsOutcome.nameError "telegram_")
  else
    let consumed_energy' :=
      if consumed_energy < st.last_consumed_energy then st.last_consumed_energy
      else consumed_energy
    let last_e :=
      if consumed_energy < st.last_consumed_energy then consumed_energy'
      else st.last_consumed_energy
    let consumed_power :=
      pyRound (meter.import_power - meter.export_power + (generated_power : ℚ))
    let consumed_power' :=
      if consumed_power < 0 then st.last_consumed_power else consumed_power
    let last_p :=
      if consumed_power < 0 then consumed_power' else st.last_consumed_power
    ({ st with last_consumed_energy := last_e, last_consumed_power := last_p },
      ConsOutcome.ok consumed_energy' consumed_power')

/-- An upload record for PVOutput (`pvo_data` in `run_once`, `payload` in
`PVOutputApi.add_status`).  A field holding `none` is not uploaded as a
numeric value (key absent, or present with the value `None`); `v5` is
reserved for the outside temperature and never set by this program. -/
structure PvoRecord where
  v1 : Option ℤ := none
  v2 : Option ℤ := none
  v3 : Option ℤ := none
  v4 : Option ℤ := none
  v6 : Option ℚ := none
  v7 : Option ℚ := none
  v8 : Option String := none
  v9 : Option ℤ := none
  v10 : Option ℤ := none
  v11 : Option ℤ := none
  v12 : Option ℤ := none
  deriving Repr, DecidableEq

/-- The inline helper of `run_once` line 148:
`def r(x): return round(x) if x else None`, applied to the numeric string
readings (falsy exactly when the value is 0). -/
def rOpt (x : ℚ) : Option ℤ := if x = 0 then none else some (pyRound x)

/-- Python `round(x) if x else None` for a value that may be `None`
(used for `cons_wh`, `cons_w`, `vpv1`, ... in `PVOutputApi.add_status`). -/
def truthyRound (x : Option ℚ) : Option ℤ :=
  match x with
  | none => none
  | some q => if q = 0 then none else some (pyRound q)

/-- The `pvo_data` record construction of `run_once`
(`gw2pvo/__main__.py` lines 235-262):
a base record with `v6` (voltage), `v7` (inverter temperature) and `v8`
(MQTT user data); then, if a smart meter module is present, `v3`/`v4`
(consumption); `elif sun_up`, `v1`/`v2` (generation); finally, if
`sun_up`, `v1`/`v2` and the per-string fields `v9`-`v12` through the
helper `r`. -/
def buildPvoData (sun_up smartmeter_present : Bool)
    (consumed_energy consumed_power generated_energy generated_power : ℤ)
    (voltage inverter_temperature : ℚ) (v8_data : Option String)
    (vpv1 vpv2 Ppv1 Ppv2 : ℚ) : PvoRecord :=
  let p : PvoRecord :=
    { v6 := some voltage, v7 := some inverter_temperature, v8 := v8_data }
  let p :=
    if smartmeter_present then
      { p with v3 := some consumed_energy, v4 := some consumed_power }
    else if sun_up then
      { p with v1 := some generated_energy, v2 := some generated_power }
    else p
  if sun_up then
    { p with v1 := some generated_energy, v2 := some generated_power,
             v9 := rOpt vpv1, v10 := rOpt vpv2, v11 := rOpt Ppv1, v12 := rOpt Ppv2 }
  else p

/-- The payload construction of `PVOutputApi.add_status`
(`gw2pvo/pvo_api.py` lines 38-70).  When `SunUp` is true the payload has
`v1 = round(eday_wh)`, `v2 = round(pgrid_w)`, the truthy-guarded rounds of
`cons_wh`, `cons_w` and the string readings, and `v6`/`v7`/`v8` when those
arguments are not `None`.  When `SunUp` is false the payload holds only
`v3`/`v4` besides the date and time.  The date and time fields `d` and `t`
(local wall clock) and the unused `temperature` argument (`v5` is reserved)
are elided from the model. -/
def addStatusPayload (SunUp : Bool) (pgrid_w eday_wh : ℚ)
    (cons_wh cons_w : Option ℚ) (voltage invertertemp : Option ℚ)
    (v8data : Option String) (vpv1 vpv2 Ppv1 Ppv2 : Option ℚ) : PvoRecord :=
  if SunUp then
    { v1 := some (pyRound eday_wh), v2 := some (pyRound pgrid_w),
      v3 := truthyRound cons_wh, v4 := truthyRound cons_w,
      v9 := truthyRound vpv1, v10 := truthyRound vpv2,
      v11 := truthyRound Ppv1, v12 := truthyRound Ppv2,
      v6 := voltage, v7 := invertertemp, v8 := v8data }
  else
    { v3 := truthyRound cons_wh, v4 := truthyRound cons_w }

/-- One inverter reading, the dictionary returned by
`GoodWeApi.getCurrentReadings`. -/
structure InverterData where
  status : String
  pgrid_w : ℚ
  eday_kwh : ℚ
  temperature : ℚ
  grid_voltage : ℚ
  pv_voltage : ℚ
  vpv1 : ℚ
  vpv2 : ℚ
  Ppv1 : ℚ
  Ppv2 : ℚ
  deriving Repr, DecidableEq

/-- The configuration flags of the argparse namespace that `run_once`
consults. -/
structure RSettings where
  skip_offline : Bool
  csv : Bool
  pv_voltage : Bool
  deriving Repr, DecidableEq

/-- External actions taken by one interval iteration or by the backfill
path.  `uploadStatus` would be an `add_status` HTTP submission,
`uploadBatch` is an `add_day` batch submission (rows modelled as pairs of
`round(eday_kwh * 1000)` and `pgrid_w`; the date and time fields of each
row are elided). -/
inductive Effect where
  | fetchReadings
  | csvAppend
  | uploadStatus (record : PvoRecord)
  | uploadBatch (rows : List (ℤ × ℚ))
  deriving Repr, DecidableEq

/-- Whether an effect is an upload to PVOutput. -/
def Effect.isUpload : Effect → Bool
  | Effect.uploadStatus _ => true
  | Effect.uploadBatch _ => true
  | _ => false

/-- How one invocation of `run_once` ends: normal return, the
skip-when-offline early return (line 172), or a raised exception carrying
the Python name whose lookup failed. -/
inductive RunOutcome where
  | completed
  | skippedOffline
  | raised (var : String)
  deriving Repr, DecidableEq

/-- Result of one `run_once` invocation: the updated module globals, how
the call ended, the `pvo_data` record it assembled (if it got that far),
and the external actions taken. -/
structure RunResult where
  state : ConsState
  outcome : RunOutcome
  record : Option PvoRecord
  effects : List Effect
  deriving Repr, DecidableEq

/-- The body of `run_once` (`gw2pvo/__main__.py` lines 135-271).
`sun_up` is the dawn/dusk test of lines 153-158, `grace` the midnight test
of line 213, `smartmeter_present` whether `smartmeter_mqtt` imported.

Control flow, in source order:
* lines 161-164: the stored global `data` dict is never reassigned (the
  assignment inside `run_once` rebinds a local), so it stays empty and
  `if sun_up or not bool(data)` is always true: a fetch always happens;
* lines 169-172: with `skip_offline` set and an offline inverter,
  `run_once` returns early;
* lines 175-181: with a CSV path configured and the inverter not offline,
  the reading is appended to the CSV file;
* lines 184-192: voltage selection, `generated_energy = int(1000 * eday_kwh)`,
  `generated_power = round(pgrid_w)`;
* line 195: the consumption block runs only when `smartmeter_present` and
  the telegram is non-empty (`len(telegram)` truthy); a `NameError` raised
  inside it propagates out of `run_once`;
* lines 235-262: the `pvo_data` record is assembled by `buildPvoData`.
  When `smartmeter_present` is true but the consumption block was skipped,
  line 243 reads the local `consumed_energy` that was never assigned, so
  `run_once` raises `UnboundLocalError` (a `NameError`) instead;
* lines 266-271: the submission to PVOutput is commented out, so no upload
  effect is ever produced; the function returns `None`. -/
def runOnce (settings : RSettings) (sun_up : Bool) (inverter : InverterData)
    (smartmeter_present : Bool) (telegram : String) (meter : MeterData)
    (grace : Bool) (v8_data : Option String) (st : ConsState) : RunResult :=
  let effects := [Effect.fetchReadings]
  if settings.skip_offline && (inverter.status == "Offline") then
    { state := st, outcome := RunOutcome.skippedOffline, record := none, effects := effects }
  else
    let effects :=
      effects ++ (if settings.csv && !(inverter.status == "Offline") then [Effect.csvAppend] else [])
    let inverter_temperature := inverter.temperature
    let voltage := if settings.pv_voltage then inverter.pv_voltage else inverter.grid_voltage
    let generated_energy := pyInt (1000 * inverter.eday_kwh)
    let generated_power := pyRound inverter.pgrid_w
    if smartmeter_present && !(telegram.length == 0) then
      match consumptionStep st telegram meter grace generated_energy generated_power with
      | (st', ConsOutcome.nameError v) =>
        { state := st', outcome := RunOutcome.raised v, record := none, effects := effects }
      | (st', ConsOutcome.ok ce cp) =>
        { state := st', outcome := RunOutcome.completed,
          record := some (buildPvoData sun_up smartmeter_present ce cp
            generated_energy generated_power voltage inverter_temperature v8_data
            inverter.vpv1 inverter.vpv2 inverter.Ppv1 inverter.Ppv2),
          effects := effects }
    else
      if smartmeter_present then
        { state := st, outcome := RunOutcome.raised "consumed_energy", record := none,
          effects := effects }
      else
        { state := st, outcome := RunOutcome.completed,
          record := some (buildPvoData sun_up smartmeter_present 0 0
            generated_energy generated_power voltage inverter_temperature v8_data
            inverter.vpv1 inverter.vpv2 inverter.Ppv1 inverter.Ppv2),
          effects := effects }

/-- What the interval loop does after one iteration. -/
inductive LoopAction where
  | continueLoop
  | stopLoop
  deriving Repr, DecidableEq

/-- The iteration boundary of `run` (`gw2pvo/__main__.py` lines 453-465):
every exception raised by `run_once` other than `KeyboardInterrupt` is
caught and logged; afterwards the loop breaks only when no upload interval
is configured, and otherwise sleeps until the next interval.  The outcome
of the iteration, raised exceptions included, never stops the loop. -/
def loopStep (pvo_interval : Option ℕ) (_outcome : RunOutcome) : LoopAction :=
  match pvo_interval with
  | none => LoopAction.stopLoop
  | some _ => LoopAction.continueLoop

/-- Batches of at most 30 readings, as built by the list comprehension of
`PVOutputApi.add_day` (`gw2pvo/pvo_api.py` line 86). -/
def chunksOf {α : Type} : List α → List (List α)
  | [] => []
  | x :: xs => ((x :: xs).take 30) :: chunksOf ((x :: xs).drop 30)
termination_by l => l.length
decreasing_by simp; omega

/-- `PVOutputApi.add_day` (`gw2pvo/pvo_api.py` lines 74-101): one
`addbatchstatus` call per batch of 30, each row carrying
`round(eday_kwh * 1000)` and `pgrid_w` (entries given as such pairs). -/
def addDayEffects (entries : List (ℚ × ℚ)) : List Effect :=
  (chunksOf entries).map
    (fun chunk => Effect.uploadBatch (chunk.map (fun e => (pyRound (e.1 * 1000), e.2))))

/-- The one-shot backfill path `copy` (`gw2pvo/__main__.py` lines
274-294): fetch the day readings, then, when PVOutput credentials are
configured, submit them through `PVOutputApi.add_day`; otherwise only log
them. -/
def copyEffects (has_pvo_creds : Bool) (entries : List (ℚ × ℚ)) : List Effect :=
  if has_pvo_creds then addDayEffects entries else []

/-- What one attempt of the retry loop of `PVOutputApi.call` observes:
a response `requests.raise_for_status` accepts (no 4xx/5xx), a 403
response (rate limited) whose headers give the computed `reset` value of
line 122 (`round(float(headers reset) - time.time())`, 0 when the header
is absent), another 4xx/5xx response, or a transport failure in
`requests.post` itself. -/
inductive AttemptOutcome where
  | ok
  | forbidden (reset : ℤ)
  | httpErr
  | transportErr
  deriving Repr, DecidableEq

/-- How `PVOutputApi.call` terminates: a successful post (`break`), the
`for`-`else` exhaustion branch of line 137 (`"Failed to call PVOutput
API"`), a raised `UnboundLocalError` (a transport failure on the first
attempt leaves `r` unbound in the `except` handler of line 135), or a
raised `ValueError` (`time.sleep` of a negative 403 wait on line 130). -/
inductive CallResult where
  | success
  | exhausted
  | raisedUnboundLocal
  | raisedValueError
  deriving Repr, DecidableEq

/-- Observable trace of one `PVOutputApi.call` invocation: how it ended,
the durations passed to `time.sleep` in execution order (seconds), and how
many `requests.post` attempts were made. -/
structure CallTrace where
  result : CallResult
  sleeps : List ℤ
  attempts : ℕ
  deriving Repr, DecidableEq

/-- Python `i ** 3` of line 136. -/
def cube (i : ℤ) : ℤ := i * i * i

/-- The body of the retry loop of `PVOutputApi.call`
(`gw2pvo/pvo_api.py` lines 118-138), iterating `for i in range(1, 4)`,
so over attempts `i = 1, 2, 3`.  `f i` is what attempt `i` observes;
`rBound` records whether a previous attempt bound the local `r`.

Per-iteration behaviour, from the source:
* a 2xx/3xx response: `raise_for_status` does not raise and the loop
  breaks with no further sleep;
* a 403 response: `time.sleep(reset + 1)` (a `ValueError` escapes if that
  is negative), then fall through to `time.sleep(i ** 3)` at line 136 and
  the next iteration — a 403 both consumes an attempt and incurs the
  cubed backoff sleep;
* another 4xx/5xx response: `raise_for_status` raises, the handler logs
  `r.text`, then `time.sleep(i ** 3)` and the next iteration;
* a transport failure: the handler evaluates `r.text or str(arg)`; on the
  first attempt `r` was never bound, so an `UnboundLocalError` escapes;
  otherwise logging succeeds, then `time.sleep(i ** 3)` and the next
  iteration;
* when all three iterations finish without `break`, the `for`-`else`
  branch logs "Failed to call PVOutput API" and the call returns. -/
def pvoCallGo (f : ℕ → AttemptOutcome) (i : ℕ) (rBound : Bool) : CallTrace :=
  if 4 ≤ i then { result := CallResult.exhausted, sleeps := [], attempts := 0 }
  else
    match f i with
    | AttemptOutcome.ok =>
      { result := CallResult.success, sleeps := [], attempts := 1 }
    | AttemptOutcome.forbidden reset =>
      if reset + 1 < 0 then
        { result := CallResult.raisedValueError, sleeps := [], attempts := 1 }
      else
        let t := pvoCallGo f (i + 1) true
        { result := t.result, sleeps := (reset + 1) :: cube (i : ℤ) :: t.sleeps,
          attempts := t.attempts + 1 }
    | AttemptOutcome.httpErr =>
      let t := pvoCallGo f (i + 1) true
      { result := t.result, sleeps := cube (i : ℤ) :: t.sleeps, attempts := t.attempts + 1 }
    | AttemptOutcome.transportErr =>
      if rBound then
        let t := pvoCallGo f (i + 1) rBound
        { result := t.result, sleeps := cube (i : ℤ) :: t.sleeps, attempts := t.attempts + 1 }
      else
        { result := CallResult.raisedUnboundLocal, sleeps := [], attempts := 1 }
termination_by 4 - i
decreasing_by all_goals omega

/-- `PVOutputApi.call` under the attempt outcomes `f`: the loop starts at
`i = 1` with the local `r` unbound. -/
def pvoCall (f : ℕ → AttemptOutcome) : CallTrace := pvoCallGo f 1 false

/-- One sample of `GetPowerStationPacByDayForApp`, as consumed by
`GoodWeApi.getDayReadings`: the hour and minute parsed from the sample's
date string and the instantaneous power `pac` in W. -/
structure PacSample where
  hour : ℕ
  minute : ℕ
  pac : ℚ
  deriving Repr, DecidableEq

/-- One entry of the day series of `GoodWeApi.getDayReadings`: the sample
timestamp as fractional hours, the instantaneous power in W and the
cumulative energy so far in kWh. -/
structure DayEntry where
  dt_hours : ℚ
  pgrid_w : ℚ
  eday_kwh : ℚ
  deriving Repr, DecidableEq

/-- The loop body of `GoodWeApi.getDayReadings`
(`tests/gw_api copy.py` lines 224-235), folding over the samples with the
accumulator (hours, kwh, entries):
`next_hours = hour + minute / 60`; samples with non-positive power are
discarded; a kept sample adds `pac / 1000 * (next_hours - hours)` to the
running kWh and appends an entry with `round(kwh, 3)`; `hours` advances to
`next_hours` for every sample, kept or discarded. -/
def gwDayStep (acc : ℚ × ℚ × List DayEntry) (sample : PacSample) :
    ℚ × ℚ × List DayEntry :=
  let hours := acc.1
  let kwh := acc.2.1
  let entries := acc.2.2
  let next_hours : ℚ := (sample.hour : ℚ) + (sample.minute : ℚ) / 60
  if sample.pac > 0 then
    let kwh' := kwh + sample.pac / 1000 * (next_hours - hours)
    (next_hours, kwh',
      entries ++ [{ dt_hours := next_hours, pgrid_w := sample.pac, eday_kwh := round3 kwh' }])
  else
    (next_hours, kwh, entries)

/-- The integration loop of `GoodWeApi.getDayReadings`, started from
`hours = 0`, `kwh = 0` and no entries (lines 221-223). -/
def integrateDay (pacs : List PacSample) : ℚ × ℚ × List DayEntry :=
  pacs.foldl gwDayStep (0, 0, [])

/-- The integrated day total `kwh` after the loop of
`GoodWeApi.getDayReadings`. -/
def integratedKwh (pacs : List PacSample) : ℚ := (integrateDay pacs).2.1

/-- The day series built by the loop of `GoodWeApi.getDayReadings`,
before the rescaling step. -/
def rawDayEntries (pacs : List PacSample) : List DayEntry := (integrateDay pacs).2.2

/-- `GoodWeApi.getDayReadings` (`tests/gw_api copy.py` lines 209-241)
given the power samples and the authoritative day total returned by
`getActualKwh` (0 when unavailable).  Lines 236-240: when the actual
total is positive, every entry's `eday_kwh` is multiplied by
`correction = eday_kwh / kwh`; a zero integrated total then raises
`ZeroDivisionError`. -/
def gwGetDayReadings (pacs : List PacSample) (actual_eday_kwh : ℚ) :
    Except String (List DayEntry) :=
  let kwh := integratedKwh pacs
  let entries := rawDayEntries pacs
  if actual_eday_kwh > 0 then
    if kwh = 0 then Except.error "ZeroDivisionError"
    else Except.ok
      (entries.map (fun e => { e with eday_kwh := e.eday_kwh * (actual_eday_kwh / kwh) }))
  else Except.ok entries

/-- Modelled from the spec: the day total obtained by integrating the
retained (positive-power) samples trapezoidally over the elapsed
fractional hours between consecutive samples, as the spec's replay
contract describes ("integrates trapezoidally over elapsed fractional
hours between consecutive samples ... discarding samples with non-positive
power").  The previous sample's power starts at 0 at hour 0 and advances
with every sample.  This definition follows the spec's words, for
comparison with `integratedKwh`, which follows the source. -/
def specTrapezoidKwh (pacs : List PacSample) : ℚ :=
  (pacs.foldl
    (fun acc s =>
      let hours := acc.1
      let prev_pac := acc.2.1
      let kwh := acc.2.2
      let next_hours : ℚ := (s.hour : ℚ) + (s.minute : ℚ) / 60
      if s.pac > 0 then
        (next_hours, s.pac, kwh + (prev_pac + s.pac) / 2 / 1000 * (next_hours - hours))
      else
        (next_hours, s.pac, kwh))
    (0, 0, 0)).2.2

theorem ratFloor_intCast (n : ℤ) : ratFloor (n : ℚ) = n := by
  simp [ratFloor, Rat.intCast_num, Rat.intCast_den]

theorem pyRound_intCast (n : ℤ) : pyRound (n : ℚ) = n := by
  simp [pyRound, ratFloor_intCast]

theorem pyInt_intCast (n : ℤ) : pyInt (n : ℚ) = n := by
  simp [pyInt, Rat.intCast_num, Rat.intCast_den]

theorem pyRound_eq_intCast {q : ℚ} {n : ℤ} (h : q = (n : ℚ)) : pyRound q = n := by
  rw [h, pyRound_intCast]

theorem pyInt_eq_intCast {q : ℚ} {n : ℤ} (h : q = (n : ℚ)) : pyInt q = n := by
  rw [h, pyInt_intCast]

/-- Characterization of the consumption block outside the grace window:
the stored globals do not change at all (both clamp branches re-assign the
value already stored), the emitted consumed energy is the maximum of the
computed value and the stored floor, and the emitted consumed power is the
stored value when the computed power is negative. -/
theorem consumptionStep_false_eq (st : ConsState) (tg : String) (m : MeterData)
    (ge gp : ℤ) :
    consumptionStep st tg m false ge gp =
      (st, ConsOutcome.ok
        (max (pyRound (m.import_energy - m.export_energy + (ge : ℚ))) st.last_consumed_energy)
        (if pyRound (m.import_power - m.export_power + (gp : ℚ)) < 0
         then st.last_consumed_power
         else pyRound (m.import_power - m.export_power + (gp : ℚ)))) := by
  rcases st with ⟨le, lp, tm⟩
  simp only [consumptionStep, Bool.false_eq_true, if_false, Prod.mk.injEq,
    ConsState.mk.injEq, ConsOutcome.ok.injEq]
  split_ifs <;> simp_all <;> omega

/-- Claim C1, counterexample: starting from the initial globals (floor 0),
two consecutive non-grace meter iterations whose computed consumed energy
is 100 Wh and then 50 Wh emit 100 and then 50 — the emitted
consumed-energy sequence within one calendar day decreases, because the
clamp of lines 222-224 never raises the stored floor (its second
assignment re-assigns the value the floor already has), so the claimed
monotonicity fails. -/
theorem c1_monotonicity_counterexample :
    (consumptionStep initialConsState "T" ⟨100, 0, 0, 0⟩ false 0 0).2
      = ConsOutcome.ok 100 0
    ∧ (consumptionStep (consumptionStep initialConsState "T" ⟨100, 0, 0, 0⟩ false 0 0).1
        "T" ⟨50, 0, 0, 0⟩ false 0 0).2 = ConsOutcome.ok 50 0
    ∧ (50 : ℤ) < 100 := by
  have h100 : pyRound (100 : ℚ) = 100 := pyRound_eq_intCast (by norm_num)
  have h50 : pyRound (50 : ℚ) = 50 := pyRound_eq_intCast (by norm_num)
  have h0 : pyRound (0 : ℚ) = 0 := pyRound_eq_intCast (by norm_num)
  refine ⟨?_, ?_, by norm_num⟩ <;>
    simp [consumptionStep_false_eq, initialConsState, h100, h50, h0]

/-- Claim C1 (amended): in every iteration of the consumption block
outside the grace window, if the newly computed consumed energy is below
the stored `last_consumed_energy` the stored value is emitted instead, and
the subsequent assignment re-assigns `last_consumed_energy` the value it
already holds; hence the emitted consumed energy equals
max(computed, floor), is never below the stored floor, and the stored
floor never changes — but the emitted sequence need not be
non-decreasing. -/
theorem c1_energy_clamp_amended (st : ConsState) (tg : String) (m : MeterData)
    (ge gp : ℤ) :
    (consumptionStep st tg m false ge gp).1 = st
    ∧ (∃ cp, (consumptionStep st tg m false ge gp).2 =
        ConsOutcome.ok
          (max (pyRound (m.import_energy - m.export_energy + (ge : ℚ)))
            st.last_consumed_energy) cp)
    ∧ st.last_consumed_energy ≤
        max (pyRound (m.import_energy - m.export_energy + (ge : ℚ)))
          st.last_consumed_energy := by
  rw [consumptionStep_false_eq]
  exact ⟨rfl, ⟨_, rfl⟩, le_max_right _ _⟩

/-- Claim C2 (code bug, evaluated at the failing input): a grace-window
invocation of the consumption block (the midnight reset path) assigns
`telegram_midnight = telegram` and then raises `NameError` at
`print (telegram_)` on line 216, so the reset path never completes: the
generated-energy accumulator and the consumed-energy floor are never
reset.  A second invocation inside the same grace window does the same and
leaves the same state, but both terminate in the `NameError`, contradicting
the claim that the reset path completes without error. -/
theorem c2_reset_raises_name_error :
    consumptionStep initialConsState "T1" ⟨10, 2, 1, 1⟩ true 0 0
      = ({ initialConsState with telegram_midnight := "T1" },
         ConsOutcome.nameError "telegram_")
    ∧ consumptionStep { initialConsState with telegram_midnight := "T1" }
        "T1" ⟨10, 2, 1, 1⟩ true 0 0
      = ({ initialConsState with telegram_midnight := "T1" },
         ConsOutcome.nameError "telegram_") := by
  constructor <;> rfl

/-- Claim C3, counterexample: the consumed-power floor is not "the last
valid non-negative reading".  Starting from the initial globals, an
iteration whose computed consumed power is 500 W emits 500, but the stored
`last_consumed_power` stays at its initial default 120 (the clamp of lines
228-230 only ever re-assigns the stored value to itself); when the next
iteration computes -5 W, the emitted substitute is 120, not the last valid
non-negative reading 500. -/
theorem c3_power_floor_counterexample :
    (consumptionStep initialConsState "T" ⟨0, 500, 0, 0⟩ false 0 0).2
      = ConsOutcome.ok 0 500
    ∧ (consumptionStep (consumptionStep initialConsState "T" ⟨0, 500, 0, 0⟩ false 0 0).1
        "T" ⟨0, 0, 0, 5⟩ false 0 0).2 = ConsOutcome.ok 0 120
    ∧ (120 : ℤ) ≠ 500 := by
  have h500 : pyRound (500 : ℚ) = 500 := pyRound_eq_intCast (by norm_num)
  have hm5 : pyRound (-5 : ℚ) = -5 := pyRound_eq_intCast (by norm_num)
  have h0 : pyRound (0 : ℚ) = 0 := pyRound_eq_intCast (by norm_num)
  refine ⟨?_, ?_, by norm_num⟩ <;>
    simp [consumptionStep_false_eq, initialConsState, h500, hm5, h0]

/-- Claim C3 (amended): in every iteration of the consumption block
outside the grace window, if the computed consumed power is negative the
stored `last_consumed_power` is emitted instead and is then re-assigned
the value it already holds, so the stored value never changes; whenever
the stored value is non-negative (as it is from the initial default 120
onward, since it never changes), every emitted consumed power is ≥ 0.
The floor is the initial default, not the last valid non-negative
reading: accepted non-negative readings never refresh it. -/
theorem c3_power_clamp_amended (st : ConsState) (tg : String) (m : MeterData)
    (ge gp : ℤ) (h : 0 ≤ st.last_consumed_power) :
    (consumptionStep st tg m false ge gp).1.last_consumed_power
      = st.last_consumed_power
    ∧ (∃ ce, (consumptionStep st tg m false ge gp).2 =
        ConsOutcome.ok ce
          (if pyRound (m.import_power - m.export_power + (gp : ℚ)) < 0
           then st.last_consumed_power
           else pyRound (m.import_power - m.export_power + (gp : ℚ))))
    ∧ 0 ≤ (if pyRound (m.import_power - m.export_power + (gp : ℚ)) < 0
           then st.last_consumed_power
           else pyRound (m.import_power - m.export_power + (gp : ℚ))) := by
  rw [consumptionStep_false_eq]
  refine ⟨rfl, ⟨_, rfl⟩, ?_⟩
  split_ifs with hneg
  · exact h
  · omega

/-- Claim C3 witness: the amended clamp at a concrete input — initial
state (stored power 120, non-negative), computed consumed power -5;
the emitted power is the stored 120 and is non-negative. -/
theorem c3_power_clamp_amended_witness :
    (0 : ℤ) ≤ initialConsState.last_consumed_power
    ∧ (consumptionStep initialConsState "T" ⟨0, 0, 0, 5⟩ false 0 0).1.last_consumed_power
        = initialConsState.last_consumed_power
    ∧ 0 ≤ (if pyRound (((⟨0, 0, 0, 5⟩ : MeterData).import_power
              - (⟨0, 0, 0, 5⟩ : MeterData).export_power + ((0 : ℤ) : ℚ))) < 0
           then initialConsState.last_consumed_power
           else pyRound ((⟨0, 0, 0, 5⟩ : MeterData).import_power
              - (⟨0, 0, 0, 5⟩ : MeterData).export_power + ((0 : ℤ) : ℚ))) := by
  have h := c3_power_clamp_amended initialConsState "T" ⟨0, 0, 0, 5⟩ 0 0 (by decide)
  exact ⟨by decide, h.1, h.2.2⟩

/-- Claim C4: outside the midnight grace window, and when neither clamp
fires (the computed consumed energy is at least the stored floor and the
computed consumed power is non-negative), the consumption block emits
consumed energy `round(import_energy - export_energy + generated_energy)`
with `generated_energy = int(1000 * eday_kwh)`, and consumed power
`round(import_power - export_power + generated_power)`. -/
theorem c4_consumption_formula (st : ConsState) (tg : String) (m : MeterData)
    (eday_kwh : ℚ) (generated_power : ℤ)
    (h1 : st.last_consumed_energy ≤
      pyRound (m.import_energy - m.export_energy + ((pyInt (1000 * eday_kwh)) : ℚ)))
    (h2 : 0 ≤ pyRound (m.import_power - m.export_power + ((generated_power : ℤ) : ℚ))) :
    (consumptionStep st tg m false (pyInt (1000 * eday_kwh)) generated_power).2 =
      ConsOutcome.ok
        (pyRound (m.import_energy - m.export_energy + ((pyInt (1000 * eday_kwh)) : ℚ)))
        (pyRound (m.import_power - m.export_power + ((generated_power : ℤ) : ℚ))) := by
  rw [consumptionStep_false_eq]
  have hmax : max (pyRound (m.import_energy - m.export_energy
      + ((pyInt (1000 * eday_kwh)) : ℚ))) st.last_consumed_energy
      = pyRound (m.import_energy - m.export_energy + ((pyInt (1000 * eday_kwh)) : ℚ)) :=
    max_eq_left h1
  have hite : (if pyRound (m.import_power - m.export_power + ((generated_power : ℤ) : ℚ)) < 0
      then st.last_consumed_power
      else pyRound (m.import_power - m.export_power + ((generated_power : ℤ) : ℚ)))
      = pyRound (m.import_power - m.export_power + ((generated_power : ℤ) : ℚ)) := by
    split_ifs with hc
    · omega
    · rfl
  rw [hmax, hite]

/-- Claim C4 witness: the end-to-end scenario of the spec — meter import
3000 Wh and 1500 W, export 500 Wh and 300 W, inverter energy today
5.2 kWh (`generated_energy = int(1000 * 5.2) = 5200`) and generated power
1200 W: the block emits consumed energy 3000 - 500 + 5200 = 7700 Wh and
consumed power 1500 - 300 + 1200 = 2400 W. -/
theorem c4_consumption_formula_witness :
    initialConsState.last_consumed_energy ≤
      pyRound ((3000 : ℚ) - 500 + ((pyInt (1000 * (26/5 : ℚ))) : ℚ))
    ∧ (0 : ℤ) ≤ pyRound ((1500 : ℚ) - 300 + (((1200 : ℤ)) : ℚ))
    ∧ (consumptionStep initialConsState "T" ⟨3000, 1500, 500, 300⟩ false
        (pyInt (1000 * (26/5 : ℚ))) 1200).2 = ConsOutcome.ok 7700 2400 := by
  have hge : pyInt (1000 * (26/5 : ℚ)) = 5200 := pyInt_eq_intCast (by norm_num)
  have hE : pyRound ((3000 : ℚ) - 500 + ((pyInt (1000 * (26/5 : ℚ))) : ℚ)) = 7700 := by
    rw [hge]
    exact pyRound_eq_intCast (by push_cast; norm_num)
  have hP : pyRound ((1500 : ℚ) - 300 + (((1200 : ℤ)) : ℚ)) = 2400 :=
    pyRound_eq_intCast (by push_cast; norm_num)
  have h1 : initialConsState.last_consumed_energy ≤
      pyRound ((3000 : ℚ) - 500 + ((pyInt (1000 * (26/5 : ℚ))) : ℚ)) := by
    rw [hE]; decide
  have h2 : (0 : ℤ) ≤ pyRound ((1500 : ℚ) - 300 + (((1200 : ℤ)) : ℚ)) := by
    rw [hP]; decide
  refine ⟨h1, h2, ?_⟩
  have h := c4_consumption_formula initialConsState "T" ⟨3000, 1500, 500, 300⟩
    (26/5) 1200 h1 h2
  rw [h]
  rw [hE, hP]

/-- Claim C5: daylight gating of the generation fields.  In the record
built by `run_once` (`buildPvoData`) and in the payload built by
`PVOutputApi.add_status` (`addStatusPayload`): when the sun is down, none
of the generation fields v1, v2, v9, v10, v11, v12 is present (they are
omitted, not zeroed); when the sun is up and an inverter reading is
present, both v1 (generated energy) and v2 (generated power) are
present. -/
theorem c5_daylight_gating :
    (∀ (smart : Bool) (ce cp ge gp : ℤ) (voltage temp : ℚ) (v8 : Option String)
        (a b c d : ℚ),
      ((buildPvoData false smart ce cp ge gp voltage temp v8 a b c d).v1 = none
        ∧ (buildPvoData false smart ce cp ge gp voltage temp v8 a b c d).v2 = none
        ∧ (buildPvoData false smart ce cp ge gp voltage temp v8 a b c d).v9 = none
        ∧ (buildPvoData false smart ce cp ge gp voltage temp v8 a b c d).v10 = none
        ∧ (buildPvoData false smart ce cp ge gp voltage temp v8 a b c d).v11 = none
        ∧ (buildPvoData false smart ce cp ge gp voltage temp v8 a b c d).v12 = none)
      ∧ ((buildPvoData true smart ce cp ge gp voltage temp v8 a b c d).v1 = some ge
        ∧ (buildPvoData true smart ce cp ge gp voltage temp v8 a b c d).v2 = some gp))
    ∧ (∀ (pg ed : ℚ) (cwh cw v6 v7 : Option ℚ) (v8 : Option String)
        (p1 p2 p3 p4 : Option ℚ),
      ((addStatusPayload false pg ed cwh cw v6 v7 v8 p1 p2 p3 p4).v1 = none
        ∧ (addStatusPayload false pg ed cwh cw v6 v7 v8 p1 p2 p3 p4).v2 = none
        ∧ (addStatusPayload false pg ed cwh cw v6 v7 v8 p1 p2 p3 p4).v9 = none
        ∧ (addStatusPayload false pg ed cwh cw v6 v7 v8 p1 p2 p3 p4).v10 = none
        ∧ (addStatusPayload false pg ed cwh cw v6 v7 v8 p1 p2 p3 p4).v11 = none
        ∧ (addStatusPayload false pg ed cwh cw v6 v7 v8 p1 p2 p3 p4).v12 = none)
      ∧ ((addStatusPayload true pg ed cwh cw v6 v7 v8 p1 p2 p3 p4).v1
            = some (pyRound ed)
        ∧ (addStatusPayload true pg ed cwh cw v6 v7 v8 p1 p2 p3 p4).v2
            = some (pyRound pg))) := by
  constructor
  · intro smart ce cp ge gp voltage temp v8 a b c d
    cases smart <;> simp [buildPvoData]
  · intro pg ed cwh cw v6 v7 v8 p1 p2 p3 p4
    simp [addStatusPayload]

/-- Claim C6, counterexample: the retry loop of `PVOutputApi.call` runs
`for i in range(1, 4)`, i.e. over three attempts, not four.  An uploader
that fails the first three attempts and would succeed on a fourth never
gets one: the call makes exactly 3 post attempts, sleeps 1, 8 and 27
seconds (the 27 s sleep after the third failure, before exhaustion, not
between attempts), and ends in the exhaustion branch instead of
succeeding. -/
theorem c6_four_attempts_counterexample :
    pvoCall (fun i => if i ≤ 3 then AttemptOutcome.httpErr else AttemptOutcome.ok)
      = { result := CallResult.exhausted, sleeps := [1, 8, 27], attempts := 3 } := by
  simp [pvoCall, pvoCallGo, cube]

/-- Claim C6 (amended): on a non-2xx response, and on a transport failure
on any attempt after the first, `PVOutputApi.call` retries up to 2
additional times (3 attempts total, `range(1, 4)`), sleeping
attempt-cubed seconds after each failed attempt.  An uploader whose first
two attempts fail that way and whose third succeeds performs exactly 2
backoff sleeps, of 1 s and 8 s; one whose three attempts all fail that
way performs exactly 3 backoff sleeps, of 1 s, 8 s and 27 s (the last
after the final failure), and terminates with the exhaustion outcome.
A transport failure on the first attempt is not retried at all: the
logging in the `except` handler of line 135 reads the still-unbound local
`r`, and the call raises `UnboundLocalError` with no sleeps after a
single attempt. -/
theorem c6_retry_backoff_amended (f : ℕ → AttemptOutcome) :
    (f 1 = AttemptOutcome.httpErr →
      (f 2 = AttemptOutcome.httpErr ∨ f 2 = AttemptOutcome.transportErr) →
      (f 3 = AttemptOutcome.httpErr ∨ f 3 = AttemptOutcome.transportErr) →
      pvoCall f = CallTrace.mk CallResult.exhausted [1, 8, 27] 3)
    ∧ (f 1 = AttemptOutcome.httpErr →
      (f 2 = AttemptOutcome.httpErr ∨ f 2 = AttemptOutcome.transportErr) →
      f 3 = AttemptOutcome.ok →
      pvoCall f = CallTrace.mk CallResult.success [1, 8] 3)
    ∧ (f 1 = AttemptOutcome.transportErr →
      pvoCall f = CallTrace.mk CallResult.raisedUnboundLocal [] 1) := by
  refine ⟨?_, ?_, ?_⟩
  · intro h1 h2 h3
    rcases h2 with h2 | h2 <;> rcases h3 with h3 | h3 <;>
      simp [pvoCall, pvoCallGo, cube, h1, h2, h3]
  · intro h1 h2 h3
    rcases h2 with h2 | h2 <;> simp [pvoCall, pvoCallGo, cube, h1, h2, h3]
  · intro h1
    simp [pvoCall, pvoCallGo, cube, h1]

/-- Claim C6 witness: the amended retry behaviour at concrete uploaders —
one failing every attempt with a non-2xx response (exhaustion after 3
attempts with sleeps 1, 8 and 27 seconds) and one whose first attempt is
a transport failure (`UnboundLocalError` after a single attempt, no
sleeps). -/
theorem c6_retry_backoff_amended_witness :
    (fun _ : ℕ => AttemptOutcome.httpErr) 1 = AttemptOutcome.httpErr
    ∧ pvoCall (fun _ => AttemptOutcome.httpErr)
      = CallTrace.mk CallResult.exhausted [1, 8, 27] 3
    ∧ (fun _ : ℕ => AttemptOutcome.transportErr) 1 = AttemptOutcome.transportErr
    ∧ pvoCall (fun _ => AttemptOutcome.transportErr)
      = CallTrace.mk CallResult.raisedUnboundLocal [] 1 :=
  ⟨rfl,
   (c6_retry_backoff_amended (fun _ => AttemptOutcome.httpErr)).1 rfl
     (Or.inl rfl) (Or.inl rfl),
   rfl,
   (c6_retry_backoff_amended (fun _ => AttemptOutcome.transportErr)).2.2 rfl⟩

/-- Claim C7, counterexample: a 403 response is not free of the cubed
backoff.  With the first attempt rate-limited (computed reset 5 s) and
the second attempt succeeding, the call sleeps 6 s (reset + 1) and then
also 1 s (the `i ** 3` backoff of line 136 is still executed), consuming
an attempt; and an uploader that is rate-limited on every attempt
exhausts all three attempts with sleeps 6, 1, 6, 8, 6, 27 — so the 403
wait does consume the backoff attempts and is charged the attempt-cubed
sleep, contrary to the claim. -/
theorem c7_forbidden_counterexample :
    pvoCall (fun i => if i = 1 then AttemptOutcome.forbidden 5 else AttemptOutcome.ok)
      = { result := CallResult.success, sleeps := [6, 1], attempts := 2 }
    ∧ pvoCall (fun _ => AttemptOutcome.forbidden 5)
      = { result := CallResult.exhausted, sleeps := [6, 1, 6, 8, 6, 27], attempts := 3 } := by
  constructor <;> simp [pvoCall, pvoCallGo, cube]

/-- Claim C7 (amended): on an HTTP 403 with a non-negative computed reset
value, `PVOutputApi.call` first sleeps `reset + 1` seconds, but then also
performs the attempt-cubed backoff sleep of that attempt (1 s on the
first attempt) before retrying, and the 403 consumes one of the 3
attempts of the loop: three successive 403 responses exhaust the call. -/
theorem c7_rate_limit_amended (f : ℕ → AttemptOutcome) (reset : ℤ)
    (h0 : 0 ≤ reset) (h1 : f 1 = AttemptOutcome.forbidden reset) :
    (pvoCall f).sleeps.take 2 = [reset + 1, 1]
    ∧ (f 2 = AttemptOutcome.forbidden reset → f 3 = AttemptOutcome.forbidden reset →
        pvoCall f = CallTrace.mk CallResult.exhausted
          [reset + 1, 1, reset + 1, 8, reset + 1, 27] 3) := by
  have hn : ¬(reset + 1 < 0) := by omega
  constructor
  · simp [pvoCall, pvoCallGo, cube, h1, hn]
  · intro h2 h3
    simp [pvoCall, pvoCallGo, cube, h1, h2, h3, hn]

/-- Claim C7 witness: the amended 403 behaviour at a concrete uploader
that is rate-limited (computed reset 5 s) on every attempt. -/
theorem c7_rate_limit_amended_witness :
    (0 : ℤ) ≤ 5
    ∧ (fun _ : ℕ => AttemptOutcome.forbidden 5) 1 = AttemptOutcome.forbidden 5
    ∧ (pvoCall (fun _ => AttemptOutcome.forbidden 5)).sleeps.take 2 = [6, 1]
    ∧ pvoCall (fun _ => AttemptOutcome.forbidden 5)
      = { result := CallResult.exhausted, sleeps := [6, 1, 6, 8, 6, 27], attempts := 3 } := by
  have h := c7_rate_limit_amended (fun _ => AttemptOutcome.forbidden 5) 5 (by norm_num) rfl
  refine ⟨by norm_num, rfl, ?_, ?_⟩
  · have h1 := h.1
    norm_num at h1
    exact h1
  · have h2 := h.2 rfl rfl
    norm_num at h2
    exact h2

/-- Every entry the integration loop of `getDayReadings` appends comes
from a sample with positive power, so positivity of the stored power is
an invariant of the fold. -/
theorem integrateDay_entries_pos (pacs : List PacSample) :
    ∀ acc : ℚ × ℚ × List DayEntry, (∀ e ∈ acc.2.2, 0 < e.pgrid_w) →
      ∀ e ∈ (pacs.foldl gwDayStep acc).2.2, 0 < e.pgrid_w := by
  induction pacs with
  | nil =>
    intro acc h
    simpa using h
  | cons s rest ih =>
    intro acc h
    simp only [List.foldl_cons]
    apply ih
    simp only [gwDayStep]
    split_ifs with hp
    · intro e he
      rcases List.mem_append.mp he with h1 | h2
      · exact h e h1
      · simp only [List.mem_singleton] at h2
        subst h2
        exact hp
    · exact h

/-- The integrated day total of the two-sample series used as the C8
demonstration input: sample powers 1000 W at 1:00 and 2000 W at 2:00,
integrated by the source's rule (each sample's power times the hours
elapsed since the previous sample) to 1 + 2 = 3 kWh. -/
theorem demoIntegratedKwh : integratedKwh [⟨1, 0, 1000⟩, ⟨2, 0, 2000⟩] = 3 := by
  norm_num [integratedKwh, integrateDay, gwDayStep]

/-- The raw day series of the C8 demonstration input. -/
theorem demoRawEntries :
    rawDayEntries [⟨1, 0, 1000⟩, ⟨2, 0, 2000⟩]
      = [⟨1, 1000, 1⟩, ⟨2, 2000, 3⟩] := by
  have h1 : round3 (1 : ℚ) = 1 := by
    have hp : pyRound (1000 : ℚ) = 1000 := pyRound_eq_intCast (by norm_num)
    norm_num [round3, hp]
  have h3 : round3 (3 : ℚ) = 3 := by
    have hp : pyRound (3000 : ℚ) = 3000 := pyRound_eq_intCast (by norm_num)
    norm_num [round3, hp]
  norm_num [rawDayEntries, integrateDay, gwDayStep]
  norm_num [h1, h3]

/-- Claim C8, counterexample: the integration of `getDayReadings` is not
trapezoidal.  On the two-sample day (1000 W at 1:00, 2000 W at 2:00) the
source integrates each sample's power over the hours elapsed since the
previous sample (a right-rectangle rule), giving 1000/1000·1 + 2000/1000·1
= 3 kWh, while the trapezoidal rule the claim describes gives
(0+1000)/2/1000·1 + (1000+2000)/2/1000·1 = 2 kWh. -/
theorem c8_trapezoid_counterexample :
    integratedKwh [⟨1, 0, 1000⟩, ⟨2, 0, 2000⟩] = 3
    ∧ specTrapezoidKwh [⟨1, 0, 1000⟩, ⟨2, 0, 2000⟩] = 2
    ∧ integratedKwh [⟨1, 0, 1000⟩, ⟨2, 0, 2000⟩]
        ≠ specTrapezoidKwh [⟨1, 0, 1000⟩, ⟨2, 0, 2000⟩] := by
  have ht : specTrapezoidKwh [⟨1, 0, 1000⟩, ⟨2, 0, 2000⟩] = 2 := by
    norm_num [specTrapezoidKwh]
  refine ⟨demoIntegratedKwh, ht, ?_⟩
  rw [demoIntegratedKwh, ht]
  norm_num

/-- Claim C8 (amended): `getDayReadings` builds the day series by
discarding samples with non-positive power and integrating each retained
sample's instantaneous power over the elapsed fractional hours since the
immediately preceding sample (rectangle rule, not trapezoidal) into a
running energy-so-far series; when the authoritative actual-energy total
is available (positive) and the integrated total is non-zero, every
entry's energy-so-far is rescaled by actual_total / integrated_total. -/
theorem c8_day_readings_amended (pacs : List PacSample) (actual : ℚ)
    (h1 : 0 < actual) (h2 : integratedKwh pacs ≠ 0) :
    gwGetDayReadings pacs actual =
      Except.ok ((rawDayEntries pacs).map
        (fun e => { e with eday_kwh := e.eday_kwh * (actual / integratedKwh pacs) }))
    ∧ ∀ e ∈ rawDayEntries pacs, 0 < e.pgrid_w := by
  constructor
  · simp [gwGetDayReadings, h1, h2]
  · exact integrateDay_entries_pos pacs (0, 0, []) (by simp)

/-- Claim C8 witness: the amended replay behaviour at the concrete
two-sample day with authoritative total 4 kWh — the integrated total is 3
kWh, so each entry's energy is rescaled by 4/3, and the last entry
reproduces the authoritative total 4. -/
theorem c8_day_readings_amended_witness :
    (0 : ℚ) < 4
    ∧ integratedKwh [⟨1, 0, 1000⟩, ⟨2, 0, 2000⟩] ≠ 0
    ∧ gwGetDayReadings [⟨1, 0, 1000⟩, ⟨2, 0, 2000⟩] 4
        = Except.ok [⟨1, 1000, 4/3⟩, ⟨2, 2000, 4⟩] := by
  have hk : integratedKwh [⟨1, 0, 1000⟩, ⟨2, 0, 2000⟩] ≠ 0 := by
    rw [demoIntegratedKwh]; norm_num
  refine ⟨by norm_num, hk, ?_⟩
  have h := (c8_day_readings_amended [⟨1, 0, 1000⟩, ⟨2, 0, 2000⟩] 4 (by norm_num) hk).1
  rw [h, demoRawEntries, demoIntegratedKwh]
  norm_num

/-- The effect trace of one `run_once` iteration is the inverter fetch,
possibly followed by a CSV append — never anything else. -/
theorem runOnce_effects_cases (settings : RSettings) (sun_up : Bool)
    (inverter : InverterData) (sm : Bool) (telegram : String) (meter : MeterData)
    (grace : Bool) (v8 : Option String) (st : ConsState) :
    (runOnce settings sun_up inverter sm telegram meter grace v8 st).effects
        = [Effect.fetchReadings]
    ∨ (runOnce settings sun_up inverter sm telegram meter grace v8 st).effects
        = [Effect.fetchReadings, Effect.csvAppend] := by
  unfold runOnce
  by_cases h1 : (settings.skip_offline && (inverter.status == "Offline")) = true
  · simp [h1]
  · by_cases h2 : (settings.csv && !(inverter.status == "Offline")) = true
    · by_cases h3 : (sm && !(telegram.length == 0)) = true
      · rcases hc : consumptionStep st telegram meter grace
          (pyInt (1000 * inverter.eday_kwh)) (pyRound inverter.pgrid_w) with ⟨st', out⟩
        cases out <;> simp [h1, h2, h3, hc]
      · by_cases h4 : sm = true
        · have h5 : telegram.length = 0 := by
            simp [h4] at h3
            exact h3
          simp [h1, h2, h3, h4, h5]
        · simp [h1, h2, h3, h4]
    · by_cases h3 : (sm && !(telegram.length == 0)) = true
      · rcases hc : consumptionStep st telegram meter grace
          (pyInt (1000 * inverter.eday_kwh)) (pyRound inverter.pgrid_w) with ⟨st', out⟩
        cases out <;> simp [h1, h2, h3, hc]
      · by_cases h4 : sm = true
        · have h5 : telegram.length = 0 := by
            simp [h4] at h3
            exact h3
          simp [h1, h2, h3, h4, h5]
        · simp [h1, h2, h3, h4]

/-- Claim C9: the interval-loop body `run_once` never submits a status
upload — across all configurations, readings and states its effect trace
contains no upload (the `add_status` submission of lines 266-271 is
commented out; the record is assembled locally and the function returns
`None`); the one-shot backfill path `copy`, by contrast, does reach the
uploader through `add_day` when PVOutput credentials are configured. -/
theorem c9_interval_loop_never_uploads :
    (∀ (settings : RSettings) (sun_up : Bool) (inverter : InverterData)
        (sm : Bool) (telegram : String) (meter : MeterData) (grace : Bool)
        (v8 : Option String) (st : ConsState),
      ((runOnce settings sun_up inverter sm telegram meter grace v8 st).effects.filter
        Effect.isUpload) = [])
    ∧ copyEffects true [(2, 1200)] = [Effect.uploadBatch [(2000, 1200)]] := by
  constructor
  · intro settings sun_up inverter sm telegram meter grace v8 st
    rcases runOnce_effects_cases settings sun_up inverter sm telegram meter grace v8 st
      with h | h <;> simp [h, Effect.isUpload]
  · have hp : pyRound ((2 : ℚ) * 1000) = 2000 := pyRound_eq_intCast (by norm_num)
    simp [copyEffects, addDayEffects, chunksOf, hp]

/-- Claim C10, counterexample: the claimed `NameError` is not raised on
every invocation with a present smart meter and an empty telegram —
when `skip_offline` is configured and the inverter reports `Offline`,
`run_once` takes the early return of line 172 before the record update is
reached, so it ends in the skip outcome rather than raising. -/
theorem c10_skip_offline_counterexample :
    (runOnce ⟨true, false, false⟩ true ⟨"Offline", 0, 0, 30, 230, 0, 0, 0, 0, 0⟩
        true "" ⟨0, 0, 0, 0⟩ false none initialConsState).outcome
      = RunOutcome.skippedOffline
    ∧ RunOutcome.skippedOffline ≠ RunOutcome.raised "consumed_energy" := by
  constructor
  · rfl
  · simp

/-- Claim C10 (amended): whenever the smart-meter module is importable
but no telegram has been received yet (empty string), and the
skip-when-offline early exit does not fire, the consumption block is
skipped yet the record update of line 243 still reads the never-assigned
local `consumed_energy`, so `run_once` raises (an `UnboundLocalError`,
a `NameError` subclass), produces no record, and the enclosing loop of
`run` catches the exception and waits for the next interval. -/
theorem c10_empty_telegram_raises (settings : RSettings) (sun_up : Bool)
    (inverter : InverterData) (meter : MeterData) (grace : Bool)
    (v8 : Option String) (st : ConsState)
    (h : (settings.skip_offline && (inverter.status == "Offline")) = false) :
    (runOnce settings sun_up inverter true "" meter grace v8 st).outcome
        = RunOutcome.raised "consumed_energy"
    ∧ (runOnce settings sun_up inverter true "" meter grace v8 st).record = none
    ∧ loopStep (some 5) (runOnce settings sun_up inverter true "" meter grace v8 st).outcome
        = LoopAction.continueLoop := by
  unfold runOnce
  simp [h, loopStep]

/-- Claim C10 witness: the amended behaviour at a concrete input — no
skip-offline configuration, a Normal inverter reading, smart meter present
and an empty telegram: `run_once` raises on the unassigned
`consumed_energy` and the loop continues. -/
theorem c10_empty_telegram_raises_witness :
    ((⟨false, false, false⟩ : RSettings).skip_offline
        && ((⟨"Normal", 0, 0, 30, 230, 0, 0, 0, 0, 0⟩ : InverterData).status == "Offline"))
      = false
    ∧ (runOnce ⟨false, false, false⟩ true ⟨"Normal", 0, 0, 30, 230, 0, 0, 0, 0, 0⟩
        true "" ⟨0, 0, 0, 0⟩ false none initialConsState).outcome
      = RunOutcome.raised "consumed_energy" := by
  have h := c10_empty_telegram_raises ⟨false, false, false⟩ true
    ⟨"Normal", 0, 0, 30, 230, 0, 0, 0, 0, 0⟩ ⟨0, 0, 0, 0⟩ false none
    initialConsState rfl
  exact ⟨rfl, h.1⟩
